import Mathlib

/-!
Verification of the coordination logic of `vkcloud_find_and_attach_fip.py`
(repository TrackLine/vkcloud, file `src/script.py`).

The script races several worker threads against the VK Cloud allocator to
obtain one floating IP inside a target subnet, claims it for a server port,
and confirms the claim.  This file gives a shallow embedding of the parts of
the script that carry the coordination logic:

* the target-range predicate `in_target_range` (script lines 119-125) with a
  faithful IPv4 dotted-quad parser standing for `ipaddress.ip_address`
  (IPv6 strings are mapped to a parse failure; in the script they would parse
  but can never lie in an IPv4 target network, so the predicate's value is
  `False` either way);
* the claim-verification poll loop `wait_for_association` (lines 169-184),
  with durations measured in tenths of a second (the script's defaults
  0.5 s poll / 8.0 s timeout become 5 and 80) and the environment - the
  `stop_event` reads and the `get_ip` answers - supplied as oracles;
* the winner arbitration performed inside `success_lock` (lines 293-313),
  as a check-and-set `tryWin` on a `Race` record; the lock serialises the
  critical sections, so a concurrent execution is some sequential run
  `runWinners` over an arbitrary arrival order;
* one iteration of the `worker` loop (lines 220-357) as `workerIter`, a
  function of a `WorkerEnv` record holding one oracle per external
  observation (each `stop_event.is_set()` read, the result of every
  OpenStack call, the `success_achieved` reads under the lock).  The result
  records how many candidates were allocated, released and kept by a win,
  whether the success flag was set, how many inter-attempt sleeps ran, and
  how control leaves the iteration; `workerRun` folds iterations into the
  worker loop;
* the top-level scheduler loop of `main` (lines 454-533) as `mainLoop` over
  a list of per-cycle outcomes, returning the process exit code
  (`none` means the loop is still running when the modelled rounds end;
  `sys.exit(main())` turns the returned value into the exit code);
* `release_fip` (lines 163-167): the `try`/`except Exception` wrapper over
  `delete_ip`.  Python's `except Exception` does not catch
  `KeyboardInterrupt` (a `BaseException`), and the model keeps that
  distinction.

Exceptions are embedded as values of `Exc`; a call to a collaborator is an
oracle of type `PyResult`.  `Exc.ki` stands for `KeyboardInterrupt`,
`Exc.unauthorized`/`Exc.notFound` for `keystoneauth1` token failures,
`Exc.http` for `openstack.exceptions.HttpException` and `Exc.other` for any
other `Exception` subclass.
-/

/-- Exception classes distinguished by the script's handlers (lines 325-347).
`ki` is `KeyboardInterrupt`, which in Python derives from `BaseException`,
not `Exception`. -/
inductive Exc where
  | ki
  | unauthorized
  | notFound
  | http
  | other
deriving DecidableEq, Repr

/-- Result of a Python call: a normal return or a raised exception. -/
inductive PyResult (α : Type) where
  | ok (a : α)
  | exc (e : Exc)
deriving DecidableEq, Repr

/-- Decimal digit test used by the dotted-quad parser. -/
def isDig (c : Char) : Bool := '0' ≤ c && c ≤ '9'

/-- Split a character list at every dot (the groups of `"a.b.c".split(".")`). -/
def splitDots : List Char → List (List Char)
  | [] => [[]]
  | c :: cs =>
    if c = '.' then [] :: splitDots cs
    else
      match splitDots cs with
      | [] => [[c]]
      | g :: gs => (c :: g) :: gs

/-- One octet of an IPv4 dotted quad, with CPython's `ipaddress` rules:
1-3 decimal digits, no leading zero, value at most 255. -/
def octetVal (cs : List Char) : Option Nat :=
  if cs.length = 0 ∨ 3 < cs.length then none
  else if ¬ cs.all isDig then none
  else if 1 < cs.length ∧ cs.head? = some '0' then none
  else
    let v := cs.foldl (fun n c => 10 * n + (c.toNat - 48)) 0
    if v ≤ 255 then some v else none

/-- `ipaddress.ip_address` restricted to IPv4: four valid octets separated by
dots give the 32-bit value, anything else is a `ValueError` (`none`). -/
def parseIPv4 (s : String) : Option Nat :=
  match (splitDots s.toList).map octetVal with
  | [some a, some b, some c, some d] => some (((a * 256 + b) * 256 + c) * 256 + d)
  | _ => none

/-- An IPv4 network as produced by `ipaddress.ip_network`: base address and
prefix length. -/
structure Net where
  addr : Nat
  prefixLen : Nat
deriving DecidableEq, Repr

/-- Membership of a 32-bit address in a network (Python's `ip_addr in net`):
the two addresses agree on the prefix. -/
def netContains (n : Net) (a : Nat) : Bool :=
  a / 2 ^ (32 - n.prefixLen) == n.addr / 2 ^ (32 - n.prefixLen)

/-- `TARGET_NETS` for the default `VKCLOUD_TARGET_NET=95.163.248.0/22`
(script lines 75-78). -/
def TARGET_NETS : List Net := [⟨((95 * 256 + 163) * 256 + 248) * 256, 22⟩]

/-- `in_target_range` (script lines 119-125): parse the string; on
`ValueError` return `False`, otherwise test membership in any target net. -/
def in_target_range (nets : List Net) (ip : String) : Bool :=
  match parseIPv4 ip with
  | none => false
  | some a => nets.any fun n => netContains n a

/-- Default `VKCLOUD_SLEEP_BETWEEN_ATTEMPTS` = `0.6` seconds (line 73). -/
def SLEEP_BETWEEN_ATTEMPTS : ℚ := 3 / 5

/-- Default `VKCLOUD_ASSOC_WAIT` = `8.0` seconds (line 74). -/
def ASSOC_WAIT : ℚ := 8

/-- Default `poll` parameter of `wait_for_association` = `0.5` seconds
(line 170). -/
def WFA_POLL_DEFAULT : ℚ := 1 / 2

/-- `ASSOC_WAIT` in tenths of a second, for the executable wait model. -/
def ASSOC_WAIT_TENTHS : Nat := 80

/-- The wait poll interval in tenths of a second. -/
def POLL_TENTHS : Nat := 5

/-- Number of executions of the `while waited < timeout` body of
`wait_for_association`: `waited` grows by `poll` from `0`, so the body runs
for every multiple of `poll` below `timeout`, i.e. `ceil (timeout / poll)`
times (durations in tenths of a second). -/
def niters (timeout poll : Nat) : Nat := (timeout + poll - 1) / poll

/-- Body of `wait_for_association` (lines 171-183).  `stop j` is the value of
the `j`-th `stop_event.is_set()` read (two reads per loop pass: one at the
top, one after the sleep); `status k` is the `port_id` attribute returned by
the `k`-th `conn.network.get_ip` call (or the exception it raises).  The
first component is the returned value (or the escaping exception), the
second counts the `get_ip` calls issued. -/
def wfaGo (stop : Nat → Bool) (status : Nat → PyResult (Option String))
    (port_id : String) : Nat → Nat → PyResult Bool × Nat
  | 0, _ => (.ok false, 0)
  | fuel + 1, k =>
    if stop (2 * k) then (.ok false, 0)
    else
      match status k with
      | .exc e => (.exc e, 1)
      | .ok p =>
        if p = some port_id then (.ok true, 1)
        else if stop (2 * k + 1) then (.ok false, 1)
        else
          ((wfaGo stop status port_id fuel (k + 1)).1,
           (wfaGo stop status port_id fuel (k + 1)).2 + 1)

/-- `wait_for_association` (lines 169-184), durations in tenths of a second,
instrumented with the number of `get_ip` status calls. -/
def wait_for_association (stop : Nat → Bool)
    (status : Nat → PyResult (Option String)) (port_id : String)
    (timeout poll : Nat) : PyResult Bool × Nat :=
  wfaGo stop status port_id (niters timeout poll) 0

/-- The shared coordination state of one cycle: `success_achieved`,
`success_ip`, `success_worker_id` (lines 91-93) and the `stop_event` flag
(line 89). -/
structure Race where
  success_achieved : Bool
  success_ip : Option String
  success_worker_id : Option Nat
  stop_set : Bool
deriving DecidableEq, Repr

/-- The critical section under `success_lock` (lines 295-312): if
`success_achieved` is still false, set it, record the ip and the worker id,
set `stop_event` and report the win; otherwise leave the state alone and
report the loss (the caller then releases its candidate). -/
def tryWin (s : Race) (worker_id : Nat) (ip : String) : Bool × Race :=
  if s.success_achieved = false then
    (true, { success_achieved := true, success_ip := some ip,
             success_worker_id := some worker_id, stop_set := true })
  else (false, s)

/-- Serialised execution of the critical sections of several workers that all
passed verification: `success_lock` forces some arrival order, and each
worker runs `tryWin` on the state left by the previous one.  Returns the
list of reported outcomes. -/
def runWinners : List (Nat × String) → Race → List Bool
  | [], _ => []
  | (w, ip) :: rest, s =>
    (tryWin s w ip).1 :: runWinners rest (tryWin s w ip).2

/-- How control leaves one pass of the worker loop body: fall through to the
next pass, leave the loop (`break`, or the loop condition turning false), or
propagate an exception out of the `worker` function. -/
inductive Control where
  | next
  | halt
  | raised (e : Exc)
deriving DecidableEq, Repr

/-- Observable outcome of one pass of the worker loop body:
how many candidates were allocated by `allocate_fip`, how many were released
by `release_fip`, how many were kept by winning (`claimed`), whether this
pass set `success_achieved`, how many inter-attempt `time.sleep` calls ran
(the sleeps inside `wait_for_association` are counted by its own model), how
many `get_ip` status calls the verification wait issued, and how control
left the pass. -/
structure IterResult where
  allocated : Nat
  released : Nat
  claimed : Nat
  declaredSuccess : Bool
  sleeps : Nat
  statusCalls : Nat
  control : Control
deriving DecidableEq, Repr

/-- Oracles for one pass of the worker loop body (lines 220-357): one field
per external observation, in program order.  Each `stop*` field is one
`stop_event.is_set()` read; the `PyResult` fields are the outcomes of the
OpenStack calls.  `release_fip` is modelled as returning normally (it absorbs
every `Exception`-class failure, see lines 163-167; a `KeyboardInterrupt`
arriving during a release is not modelled inside the iteration).  Durations
are in tenths of a second. -/
structure WorkerEnv where
  /-- line 220: `while not stop_event.is_set()`. -/
  stopLoopHead : Bool
  /-- line 222: `if WORK_DURATION_MINUTES:` (a configured schedule). -/
  workScheduled : Bool
  /-- line 227: `elapsed_minutes >= float(WORK_DURATION_MINUTES)`. -/
  elapsedExpired : Bool
  /-- line 233: `pause_event.is_set()`. -/
  pauseSet : Bool
  /-- line 237: `success_achieved` read under `success_lock`. -/
  successAtCheck : Bool
  /-- line 242 stop check. -/
  stopPreIter : Bool
  /-- line 246: `ensure_conn_alive` (re-authorisation included); an
  exception here is outside the `try` and escapes the worker. -/
  ensureRes : PyResult Unit
  /-- line 249 stop check. -/
  stopPostAuth : Bool
  /-- line 255 stop check. -/
  stopPreAlloc : Bool
  /-- lines 259-260: `allocate_fip` and its `floating_ip_address` attribute
  (`none` models a FIP granted without an address). -/
  allocRes : PyResult (Option String)
  /-- line 271 stop check. -/
  stopPostAlloc : Bool
  /-- line 278 stop check. -/
  stopPreAssoc : Bool
  /-- line 284: `conn.network.get_port`. -/
  getPortRes : PyResult Unit
  /-- line 285: `associate_fip`. -/
  assocRes : PyResult Unit
  /-- line 288 stop check. -/
  stopPostAssoc : Bool
  /-- `stop_event` reads inside `wait_for_association` (line 293's call). -/
  wstop : Nat → Bool
  /-- `get_ip` results inside `wait_for_association`. -/
  wstatus : Nat → PyResult (Option String)
  /-- line 296: `success_achieved` read under `success_lock` at the win
  attempt. -/
  successAtWin : Bool
  /-- line 336: `get_conn` inside the invalid-token handler; an exception
  here escapes the worker (the candidate was already released by then). -/
  reauthRes : PyResult Unit
  /-- line 350 stop check. -/
  stopPreSleep : Bool
  /-- line 356 stop check (after the inter-attempt sleep). -/
  stopPostSleep : Bool
  /-- the port the FIP is being attached to. -/
  port_id : String
  /-- the configured target networks. -/
  targetNets : List Net
  /-- the `ASSOC_WAIT` timeout passed to `wait_for_association`, in tenths
  of a second. -/
  assocWaitTenths : Nat

/-- An iteration outcome with no allocation and no sleep that leaves the
loop. -/
def haltIter : IterResult := ⟨0, 0, 0, false, 0, 0, .halt⟩

/-- Lines 349-357: the common tail of a pass that did not `break`, `continue`
or raise: check `stop_event`, sleep `SLEEP_BETWEEN_ATTEMPTS`, check again.
`a`, `r`, `sc` carry the counts accumulated earlier in the pass. -/
def tail349 (env : WorkerEnv) (a r sc : Nat) : IterResult :=
  if env.stopPreSleep then ⟨a, r, 0, false, 0, sc, .halt⟩
  else if env.stopPostSleep then ⟨a, r, 0, false, 1, sc, .halt⟩
  else ⟨a, r, 0, false, 1, sc, .next⟩

/-- The exception handlers of the worker (lines 325-347).  `fipHeld` says
whether a candidate is held when the exception arrives.
`KeyboardInterrupt` is re-raised without releasing (lines 325-327); an
invalid token releases the candidate and rebuilds the connection inside a
`try`/`finally` (lines 329-336), where a failing `get_conn` escapes; HTTP
and unexpected errors release the candidate and fall through to the
inter-attempt sleep (lines 338-347). -/
def onExc (env : WorkerEnv) (fipHeld : Bool) (a sc : Nat) (e : Exc) :
    IterResult :=
  match e with
  | .ki => ⟨a, 0, 0, false, 0, sc, .raised .ki⟩
  | .unauthorized =>
    match env.reauthRes with
    | .exc e2 => ⟨a, (if fipHeld then 1 else 0), 0, false, 0, sc, .raised e2⟩
    | .ok _ => tail349 env a (if fipHeld then 1 else 0) sc
  | .notFound =>
    match env.reauthRes with
    | .exc e2 => ⟨a, (if fipHeld then 1 else 0), 0, false, 0, sc, .raised e2⟩
    | .ok _ => tail349 env a (if fipHeld then 1 else 0) sc
  | .http => tail349 env a (if fipHeld then 1 else 0) sc
  | .other => tail349 env a (if fipHeld then 1 else 0) sc

/-- The critical section after a confirmed association (lines 294-313,
reached with one candidate held and `n` status calls made): the first comer
sets `success_achieved` (and `stop_event`) and keeps the candidate; a later
comer releases it; both leave the loop (`break`, line 313). -/
def winSection (env : WorkerEnv) (n : Nat) : IterResult :=
  if env.successAtWin = false then ⟨1, 0, 1, true, 0, n, .halt⟩
  else ⟨1, 1, 0, false, 0, n, .halt⟩

/-- Lines 277-317, reached once the candidate passed the range predicate:
stop check (release and break), `get_port`, `associate_fip`, stop check,
then `wait_for_association`; a confirmed wait enters the critical section,
an unconfirmed one releases the candidate and falls through to the
inter-attempt sleep. -/
def onQualified (env : WorkerEnv) : IterResult :=
  if env.stopPreAssoc then ⟨1, 1, 0, false, 0, 0, .halt⟩
  else
    match env.getPortRes with
    | .exc e => onExc env true 1 0 e
    | .ok _ =>
      match env.assocRes with
      | .exc e => onExc env true 1 0 e
      | .ok _ =>
        if env.stopPostAssoc then ⟨1, 1, 0, false, 0, 0, .halt⟩
        else
          match wait_for_association env.wstop env.wstatus env.port_id
              env.assocWaitTenths POLL_TENTHS with
          | (.exc e, n) => onExc env true 1 n e
          | (.ok true, n) => winSection env n
          | (.ok false, n) => tail349 env 1 1 n

/-- Lines 271-323, reached with a candidate carrying the address `ip`:
stop check (release and break), then the range predicate - a miss releases
the candidate and falls through to the inter-attempt sleep. -/
def onAllocated (env : WorkerEnv) (ip : String) : IterResult :=
  if env.stopPostAlloc then ⟨1, 1, 0, false, 0, 0, .halt⟩
  else if in_target_range env.targetNets ip then onQualified env
  else tail349 env 1 1 0

/-- The `try` block (lines 252-347): stop check, `allocate_fip`; a FIP
without an address is released, slept over and retried (`continue`,
line 266, which skips the lines 349-357 tail). -/
def tryBlock (env : WorkerEnv) : IterResult :=
  if env.stopPreAlloc then haltIter
  else
    match env.allocRes with
    | .exc e => onExc env false 0 0 e
    | .ok none => ⟨1, 1, 0, false, 1, 0, .next⟩
    | .ok (some ip) => onAllocated env ip

/-- One pass of the `worker` loop body (lines 220-357), in program order:
the loop condition, the work-window check (which sets `pause_event` and
breaks when the window elapsed), the pause check, the peer-success check,
a stop check, `ensure_conn_alive` (whose exception escapes the worker), a
stop check, then the `try` block. -/
def workerIter (env : WorkerEnv) : IterResult :=
  if env.stopLoopHead then haltIter
  else if env.workScheduled && env.elapsedExpired then haltIter
  else if env.pauseSet then haltIter
  else if env.successAtCheck then haltIter
  else if env.stopPreIter then haltIter
  else
    match env.ensureRes with
    | .exc e => { haltIter with control := .raised e }
    | .ok _ =>
      if env.stopPostAuth then haltIter
      else tryBlock env

/-- The worker loop: run one pass per oracle record until a pass does not
fall through to the next one.  Returns the outcomes of the executed
passes. -/
def workerRun : List WorkerEnv → List IterResult
  | [] => []
  | env :: rest =>
    match (workerIter env).control with
    | .next => workerIter env :: workerRun rest
    | .halt => [workerIter env]
    | .raised _ => [workerIter env]

/-- Every allocation of the pass reached a disposition: released, or kept by
the winning claim. -/
def disposed (res : IterResult) : Prop :=
  res.released + res.claimed = res.allocated

/-- Schedule configuration of `main`: `VKCLOUD_WORK_DURATION_MINUTES` and
`VKCLOUD_PAUSE_DURATION_MINUTES` (lines 82-83), `none` when unset. -/
structure MainCfg where
  workDuration : Option ℚ
  pauseDuration : Option ℚ

/-- Outcome of one pass of `main`'s top-level `while True` (lines 457-522):
whether `run_work_cycle` reported success, whether a `KeyboardInterrupt`
reached `main` during the pass (the cycle or the following pause), and
whether `pause_event` was set when the cycle ended. -/
structure CycleRound where
  succeeded : Bool
  interrupted : Bool
  pauseEventSet : Bool
deriving DecidableEq, Repr

/-- The top-level loop of `main` (lines 454-533), as a function of the
successive cycle outcomes; the result is the value returned by `main`
(which `sys.exit` turns into the process exit code), `none` when the loop is
still running after the modelled rounds.  A `KeyboardInterrupt` is caught at
line 524 and returns 2.  Success returns 0 (line 473).  With a schedule
configured and `pause_event` set, a missing or zero pause returns 1
(lines 477-484); otherwise `main` sleeps through the pause and re-checks
`stop_event` (lines 495-502) - at that point `stop_event` is set exactly
when this cycle succeeded (its only setters are a winning worker, line 300,
and the `KeyboardInterrupt` handler, which already returned 2), so the
`break` at line 502 (which would fall off `main` and exit with code 0) is
unreachable - and starts the next cycle.  Without a set `pause_event` the
loop reports exhaustion with 1 (lines 514-522). -/
def mainLoop (cfg : MainCfg) : List CycleRound → Option Nat
  | [] => none
  | r :: rest =>
    if r.interrupted then some 2
    else if r.succeeded then some 0
    else if cfg.workDuration.isSome && r.pauseEventSet then
      if cfg.pauseDuration = none ∨ cfg.pauseDuration = some 0 then some 1
      else if r.succeeded then some 0
      else mainLoop cfg rest
    else some 1

/-- `release_fip` (lines 163-167): `delete_ip` wrapped in
`try`/`except Exception`.  `ok true` means the delete returned, `ok false`
means an `Exception`-class failure was caught and logged.
`KeyboardInterrupt` derives from `BaseException`, so `except Exception` does
not catch it and it propagates. -/
def release_fip (deleteRes : PyResult Unit) : PyResult Bool :=
  match deleteRes with
  | .ok _ => .ok true
  | .exc .ki => .exc .ki
  | .exc _ => .ok false

/-- A concrete oracle record for evaluating single worker passes: no stop
request, no schedule, a live session, a qualifying candidate
(`95.163.248.5` with the default target nets), a working port and
association, and a status oracle that never reports the target port within
the default 8.0 s timeout. -/
def envBase : WorkerEnv where
  stopLoopHead := false
  workScheduled := false
  elapsedExpired := false
  pauseSet := false
  successAtCheck := false
  stopPreIter := false
  ensureRes := .ok ()
  stopPostAuth := false
  stopPreAlloc := false
  allocRes := .ok (some "95.163.248.5")
  stopPostAlloc := false
  stopPreAssoc := false
  getPortRes := .ok ()
  assocRes := .ok ()
  stopPostAssoc := false
  wstop := fun _ => false
  wstatus := fun _ => .ok none
  successAtWin := false
  reauthRes := .ok ()
  stopPreSleep := false
  stopPostSleep := false
  port_id := "port-a"
  targetNets := TARGET_NETS
  assocWaitTenths := ASSOC_WAIT_TENTHS

/-- The pass of `envBase` hit by a `KeyboardInterrupt` during
`associate_fip`, while the allocated candidate is held. -/
def envKI : WorkerEnv := { envBase with assocRes := .exc .ki }

/-- The pass of `envBase` whose verification succeeds at the first poll but
whose win attempt finds `success_achieved` already set by a peer. -/
def envLose : WorkerEnv :=
  { envBase with wstatus := fun _ => .ok (some "port-a"), successAtWin := true }

/-- The pass of `envBase` entered with the stop event already set. -/
def envStopHead : WorkerEnv := { envBase with stopLoopHead := true }

/-- The pass of `envBase` with a non-qualifying candidate and the stop event
observed at the check following the inter-attempt sleep. -/
def envPostSleep : WorkerEnv :=
  { envBase with allocRes := .ok (some "8.8.8.8"), stopPostSleep := true }

/-- Once `success_achieved` is set, every later critical section reports a
loss. -/
lemma runWinners_of_won (l : List (Nat × String)) (s : Race)
    (hs : s.success_achieved = true) : (runWinners l s).count true = 0 := by
  induction l generalizing s with
  | nil => rfl
  | cons p rest ih =>
    obtain ⟨w, ip⟩ := p
    simp [runWinners, tryWin, hs, ih]

/-- C1 (at-most-one winner): however many workers reach the win transition
with their verified candidates, in whatever order the lock serialises them,
exactly one `tryWin` reports the win; every later one observes the flag
already set and reports a loss. -/
theorem c1_at_most_one_winner (s : Race) (l : List (Nat × String))
    (hs : s.success_achieved = false) (hl : l ≠ []) :
    (runWinners l s).count true = 1 := by
  match l with
  | [] => exact absurd rfl hl
  | (w, ip) :: rest =>
    have h2 := runWinners_of_won rest
      { success_achieved := true, success_ip := some ip,
        success_worker_id := some w, stop_set := true } rfl
    simp [runWinners, tryWin, hs, h2]

/-- Witness for C1: three workers racing from a fresh cycle state produce
exactly one winner. -/
theorem c1_witness :
    (runWinners [(1, "95.163.248.5"), (2, "95.163.249.7"), (3, "95.163.250.9")]
      ⟨false, none, none, false⟩).count true = 1 :=
  c1_at_most_one_winner ⟨false, none, none, false⟩ _ rfl (by decide)

/-- C7 (predicate correctness): with the default target range
`95.163.248.0/22`, the address `95.163.248.5` qualifies and `95.163.252.1`
does not; every string that fails to parse is rejected; and with any
configured list of ranges the predicate holds exactly on union
membership. -/
theorem c7_predicate :
    in_target_range TARGET_NETS "95.163.248.5" = true ∧
    in_target_range TARGET_NETS "95.163.252.1" = false ∧
    (∀ nets s, parseIPv4 s = none → in_target_range nets s = false) ∧
    (∀ nets s, in_target_range nets s = true ↔
      ∃ a, parseIPv4 s = some a ∧ ∃ n ∈ nets, netContains n a = true) := by
  refine ⟨by decide, by decide, ?_, ?_⟩
  · intro nets s h
    simp [in_target_range, h]
  · intro nets s
    unfold in_target_range
    cases h : parseIPv4 s with
    | none => simp
    | some a => simp [List.any_eq_true]

/-- Witness for C7: a malformed string is rejected by the predicate. -/
theorem c7_witness : in_target_range TARGET_NETS "not-an-ip" = false :=
  c7_predicate.2.2.1 TARGET_NETS "not-an-ip" (by decide)

/-- Counterexample for C8: the default claim-verification timeout (8.0 s)
divided by the default inter-attempt delay (0.6 s) is 40/3 ≈ 13.3, which
does not lie in the range 5 to 10. -/
theorem c8_counterexample :
    ¬ (5 ≤ ASSOC_WAIT / SLEEP_BETWEEN_ATTEMPTS ∧
       ASSOC_WAIT / SLEEP_BETWEEN_ATTEMPTS ≤ 10) := by
  unfold ASSOC_WAIT SLEEP_BETWEEN_ATTEMPTS
  norm_num

/-- C8 as amended: the default timeout-to-delay ratio is 40/3 ≈ 13.3 -
above 10, though still of the order of ten - and the default verification
poll interval is much smaller than the timeout (one sixteenth of it). -/
theorem c8_amended :
    ASSOC_WAIT / SLEEP_BETWEEN_ATTEMPTS = 40 / 3 ∧
    10 < ASSOC_WAIT / SLEEP_BETWEEN_ATTEMPTS ∧
    ASSOC_WAIT / SLEEP_BETWEEN_ATTEMPTS < 20 ∧
    ASSOC_WAIT = 16 * WFA_POLL_DEFAULT := by
  unfold ASSOC_WAIT SLEEP_BETWEEN_ATTEMPTS WFA_POLL_DEFAULT
  norm_num

/-- A poll pass whose entry `stop_event` read is true returns false at once,
with no status query. -/
lemma wfaGo_stop_entry (stop : Nat → Bool)
    (status : Nat → PyResult (Option String)) (pid : String) (n k : Nat)
    (h : stop (2 * k) = true) : wfaGo stop status pid n k = (.ok false, 0) := by
  cases n with
  | zero => rfl
  | succ m => simp [wfaGo, h]

/-- C9 (stop short-circuits the wait): if the stop event is already set when
`wait_for_association` is entered (with a positive timeout), it returns
false before issuing any `get_ip` status query; and whenever the stop event
is observed at the entry of any poll pass, the loop returns false with no
further status query. -/
theorem c9_stop_short_circuits :
    (∀ (stop : Nat → Bool) (status : Nat → PyResult (Option String))
       (pid : String) (timeout poll : Nat), stop 0 = true → 0 < timeout →
       wait_for_association stop status pid timeout poll = (.ok false, 0)) ∧
    (∀ (stop : Nat → Bool) (status : Nat → PyResult (Option String))
       (pid : String) (n k : Nat), stop (2 * k) = true →
       wfaGo stop status pid n k = (.ok false, 0)) := by
  constructor
  · intro stop status pid timeout poll h _
    exact wfaGo_stop_entry stop status pid _ 0 (by simpa using h)
  · intro stop status pid n k h
    exact wfaGo_stop_entry stop status pid n k h

/-- Witness for C9: with the stop event set, the default-configuration wait
(8.0 s timeout, 0.5 s poll) returns false and performs zero status calls,
and so does a poll pass starting mid-loop. -/
theorem c9_witness :
    wait_for_association (fun _ => true) (fun _ => .ok none) "port-a" 80 5 =
      (.ok false, 0) ∧
    wfaGo (fun _ => true) (fun _ => .ok none) "port-a" 7 3 = (.ok false, 0) :=
  ⟨c9_stop_short_circuits.1 _ _ _ 80 5 rfl (by decide),
   c9_stop_short_circuits.2 _ _ _ 7 3 rfl⟩

/-- Counterexample for C10: a `KeyboardInterrupt` raised by the delete call
is not caught by `release_fip`'s `except Exception` and propagates to the
caller. -/
theorem c10_counterexample : release_fip (.exc .ki) = .exc .ki := rfl

/-- C10 as amended: `release_fip` returns normally for every behaviour of
the underlying delete call except a `KeyboardInterrupt`: a normal delete is
reported as such, and every `Exception`-class failure is caught and logged;
only the `BaseException`-class `KeyboardInterrupt` propagates. -/
theorem c10_amended :
    release_fip (.ok ()) = .ok true ∧
    (∀ e : Exc, e ≠ .ki → release_fip (.exc e) = .ok false) := by
  refine ⟨rfl, ?_⟩
  intro e he
  cases e with
  | ki => exact absurd rfl he
  | unauthorized => rfl
  | notFound => rfl
  | http => rfl
  | other => rfl

/-- Witness for C10: an HTTP failure of the delete call is absorbed. -/
theorem c10_witness : release_fip (.exc .http) = .ok false :=
  c10_amended.2 .http (by decide)

/-- The common tail keeps the accumulated counts, claims nothing, and when
it was entered having released exactly the allocated candidates, the pass
stays fully disposed. -/
lemma tail349_disposed (env : WorkerEnv) (a sc : Nat) :
    disposed (tail349 env a a sc) := by
  unfold tail349 disposed
  split
  · rfl
  · split <;> rfl

/-- The exception handlers dispose of the pass when no candidate is held. -/
lemma onExc_disposed_noFip (env : WorkerEnv) (sc : Nat) (e : Exc) :
    disposed (onExc env false 0 sc e) := by
  unfold onExc
  cases e with
  | ki => rfl
  | unauthorized =>
    cases h : env.reauthRes with
    | exc e2 => rfl
    | ok a => exact tail349_disposed env 0 sc
  | notFound =>
    cases h : env.reauthRes with
    | exc e2 => rfl
    | ok a => exact tail349_disposed env 0 sc
  | http => exact tail349_disposed env 0 sc
  | other => exact tail349_disposed env 0 sc

/-- With a candidate held, the exception handlers either dispose of it or
are the `KeyboardInterrupt` re-raise, which keeps it allocated and
undisposed. -/
lemma onExc_disposed_or_ki (env : WorkerEnv) (sc : Nat) (e : Exc) :
    disposed (onExc env true 1 sc e) ∨
      ((onExc env true 1 sc e).control = .raised .ki ∧
       (onExc env true 1 sc e).allocated = 1 ∧
       (onExc env true 1 sc e).released + (onExc env true 1 sc e).claimed = 0) := by
  unfold onExc
  cases e with
  | ki => right; exact ⟨rfl, rfl, rfl⟩
  | unauthorized =>
    left
    cases h : env.reauthRes with
    | exc e2 => rfl
    | ok a => exact tail349_disposed env 1 sc
  | notFound =>
    left
    cases h : env.reauthRes with
    | exc e2 => rfl
    | ok a => exact tail349_disposed env 1 sc
  | http => exact Or.inl (tail349_disposed env 1 sc)
  | other => exact Or.inl (tail349_disposed env 1 sc)

/-- Both outcomes of the critical section dispose of the candidate: the
winner keeps it as the claimed result, the loser releases it. -/
lemma winSection_disposed (env : WorkerEnv) (n : Nat) :
    disposed (winSection env n) := by
  unfold winSection disposed
  split <;> rfl

/-- Claim-and-verify disposes of the held candidate on every path except a
`KeyboardInterrupt`. -/
lemma onQualified_disposed_or_ki (env : WorkerEnv) :
    disposed (onQualified env) ∨
      ((onQualified env).control = .raised .ki ∧
       (onQualified env).allocated = 1 ∧
       (onQualified env).released + (onQualified env).claimed = 0) := by
  unfold onQualified
  repeat' split
  all_goals
    first
    | (left; rfl)
    | (exact onExc_disposed_or_ki env _ _)
    | (exact Or.inl (winSection_disposed env _))
    | (exact Or.inl (tail349_disposed env _ _))

/-- Handling an allocated candidate disposes of it on every path except a
`KeyboardInterrupt`. -/
lemma onAllocated_disposed_or_ki (env : WorkerEnv) (ip : String) :
    disposed (onAllocated env ip) ∨
      ((onAllocated env ip).control = .raised .ki ∧
       (onAllocated env ip).allocated = 1 ∧
       (onAllocated env ip).released + (onAllocated env ip).claimed = 0) := by
  unfold onAllocated
  repeat' split
  all_goals
    first
    | (left; rfl)
    | (exact onQualified_disposed_or_ki env)
    | (exact Or.inl (tail349_disposed env _ _))

/-- The whole `try` block disposes of its allocation on every path except a
`KeyboardInterrupt`. -/
lemma tryBlock_disposed_or_ki (env : WorkerEnv) :
    disposed (tryBlock env) ∨
      ((tryBlock env).control = .raised .ki ∧
       (tryBlock env).allocated = 1 ∧
       (tryBlock env).released + (tryBlock env).claimed = 0) := by
  unfold tryBlock
  repeat' split
  all_goals
    first
    | (left; rfl)
    | (exact Or.inl (onExc_disposed_noFip env _ _))
    | (exact onAllocated_disposed_or_ki env _)

/-- C2 as amended: on every execution path of a worker loop pass except the
`KeyboardInterrupt` re-raise, every candidate allocated in the pass reaches
exactly one disposition (released, or claimed and kept by the winner):
releases plus claims equal allocations.  On the `KeyboardInterrupt` path
with a candidate held, the handler re-raises without releasing and the
candidate is leaked (zero dispositions for one allocation). -/
theorem c2_amended (env : WorkerEnv) :
    disposed (workerIter env) ∨
      ((workerIter env).control = .raised .ki ∧
       (workerIter env).allocated = 1 ∧
       (workerIter env).released + (workerIter env).claimed = 0) := by
  unfold workerIter
  repeat' split
  all_goals
    first
    | (left; rfl)
    | (exact tryBlock_disposed_or_ki env)

/-- Counterexample for C2: a `KeyboardInterrupt` during `associate_fip`
(after a qualifying candidate was allocated) leaves the pass with one
allocation and zero dispositions - the candidate is leaked, so the
release-plus-claim count does not equal the allocation count on every
path. -/
theorem c2_counterexample :
    (workerIter envKI).released + (workerIter envKI).claimed ≠
      (workerIter envKI).allocated := by decide

/-- If no status answer ever carries the target port and the stop event
stays clear, the poll loop runs out its whole fuel, returns false and issues
one status call per pass. -/
lemma wfaGo_never_reports (stop : Nat → Bool)
    (status : Nat → PyResult (Option String)) (pid : String)
    (hstop : ∀ j, stop j = false)
    (hstat : ∀ j, ∃ v, status j = .ok v ∧ v ≠ some pid) :
    ∀ n k, wfaGo stop status pid n k = (.ok false, n) := by
  intro n
  induction n with
  | zero => intro k; rfl
  | succ m ih =>
    intro k
    obtain ⟨v, hv, hne⟩ := hstat k
    simp [wfaGo, hstop, hv, hne, ih (k + 1)]

/-- C3 (verification timeout path): in a pass that reaches the claim
attempt (qualifying candidate, live session, no stop request) but whose
status polls never report the target port, `wait_for_association` returns
false after using its whole poll budget, the worker releases the candidate,
does not set the success flag, and falls through to the next pass - no
exception, no success declared. -/
theorem c3_verification_timeout (env : WorkerEnv) (ip : String)
    (h0 : env.stopLoopHead = false)
    (h1 : (env.workScheduled && env.elapsedExpired) = false)
    (h2 : env.pauseSet = false)
    (h3 : env.successAtCheck = false)
    (h4 : env.stopPreIter = false)
    (h5 : env.ensureRes = .ok ())
    (h6 : env.stopPostAuth = false)
    (h7 : env.stopPreAlloc = false)
    (h8 : env.allocRes = .ok (some ip))
    (h9 : env.stopPostAlloc = false)
    (h10 : in_target_range env.targetNets ip = true)
    (h11 : env.stopPreAssoc = false)
    (h12 : env.getPortRes = .ok ())
    (h13 : env.assocRes = .ok ())
    (h14 : env.stopPostAssoc = false)
    (h15 : ∀ j, env.wstop j = false)
    (h16 : ∀ j, ∃ v, env.wstatus j = .ok v ∧ v ≠ some env.port_id)
    (h17 : env.stopPreSleep = false)
    (h18 : env.stopPostSleep = false) :
    wait_for_association env.wstop env.wstatus env.port_id
        env.assocWaitTenths POLL_TENTHS =
      (.ok false, niters env.assocWaitTenths POLL_TENTHS) ∧
    workerIter env =
      ⟨1, 1, 0, false, 1, niters env.assocWaitTenths POLL_TENTHS, .next⟩ := by
  have hwait : wait_for_association env.wstop env.wstatus env.port_id
      env.assocWaitTenths POLL_TENTHS =
      (.ok false, niters env.assocWaitTenths POLL_TENTHS) :=
    wfaGo_never_reports env.wstop env.wstatus env.port_id h15 h16 _ 0
  refine ⟨hwait, ?_⟩
  simp [workerIter, tryBlock, onAllocated, onQualified, tail349, h0, h1, h2,
    h3, h4, h5, h6, h7, h8, h9, h10, h11, h12, h13, h14, hwait, h17, h18]

/-- Witness for C3: with the default configuration (8.0 s timeout, 0.5 s
poll) and a status oracle that never reports the port, the wait returns
false after 16 polls and the pass releases its candidate and continues. -/
theorem c3_witness :
    wait_for_association envBase.wstop envBase.wstatus envBase.port_id
        envBase.assocWaitTenths POLL_TENTHS = (.ok false, 16) ∧
    workerIter envBase = ⟨1, 1, 0, false, 1, 16, .next⟩ :=
  c3_verification_timeout envBase "95.163.248.5" rfl rfl rfl rfl rfl rfl rfl
    rfl rfl rfl (by decide) rfl rfl rfl rfl (fun _ => rfl)
    (fun _ => ⟨none, rfl, by decide⟩) rfl rfl

/-- A poll pass whose first status answer carries the target port confirms
the association with a single status call. -/
lemma wfaGo_first_hit (stop : Nat → Bool)
    (status : Nat → PyResult (Option String)) (pid : String) (m : Nat)
    (h0 : stop 0 = false) (hs : status 0 = .ok (some pid)) :
    wfaGo stop status pid (m + 1) 0 = (.ok true, 1) := by
  simp [wfaGo, h0, hs]

/-- C4 (losing worker behaviour): a worker whose verification succeeds but
which then finds `success_achieved` already set releases its own candidate
and leaves the loop at once - the run performs no further pass. -/
theorem c4_losing_worker (env : WorkerEnv) (ip : String)
    (rest : List WorkerEnv)
    (h0 : env.stopLoopHead = false)
    (h1 : (env.workScheduled && env.elapsedExpired) = false)
    (h2 : env.pauseSet = false)
    (h3 : env.successAtCheck = false)
    (h4 : env.stopPreIter = false)
    (h5 : env.ensureRes = .ok ())
    (h6 : env.stopPostAuth = false)
    (h7 : env.stopPreAlloc = false)
    (h8 : env.allocRes = .ok (some ip))
    (h9 : env.stopPostAlloc = false)
    (h10 : in_target_range env.targetNets ip = true)
    (h11 : env.stopPreAssoc = false)
    (h12 : env.getPortRes = .ok ())
    (h13 : env.assocRes = .ok ())
    (h14 : env.stopPostAssoc = false)
    (hw0 : env.wstop 0 = false)
    (hs0 : env.wstatus 0 = .ok (some env.port_id))
    (hpos : 0 < niters env.assocWaitTenths POLL_TENTHS)
    (hwin : env.successAtWin = true) :
    workerIter env = ⟨1, 1, 0, false, 0, 1, .halt⟩ ∧
    workerRun (env :: rest) = [⟨1, 1, 0, false, 0, 1, .halt⟩] := by
  rcases Nat.exists_eq_succ_of_ne_zero (Nat.pos_iff_ne_zero.mp hpos) with
    ⟨m, hm⟩
  have hwait : wait_for_association env.wstop env.wstatus env.port_id
      env.assocWaitTenths POLL_TENTHS = (.ok true, 1) := by
    unfold wait_for_association
    rw [hm]
    exact wfaGo_first_hit env.wstop env.wstatus env.port_id m hw0 hs0
  have hiter : workerIter env = ⟨1, 1, 0, false, 0, 1, .halt⟩ := by
    simp [workerIter, tryBlock, onAllocated, onQualified, winSection, h0, h1,
      h2, h3, h4, h5, h6, h7, h8, h9, h10, h11, h12, h13, h14, hwait, hwin]
  exact ⟨hiter, by simp [workerRun, hiter]⟩

/-- Witness for C4: a pass that verifies at the first poll but loses the
race releases the candidate, and the worker run stops there. -/
theorem c4_witness :
    workerIter envLose = ⟨1, 1, 0, false, 0, 1, .halt⟩ ∧
    workerRun [envLose] = [⟨1, 1, 0, false, 0, 1, .halt⟩] :=
  c4_losing_worker envLose "95.163.248.5" [] rfl rfl rfl rfl rfl rfl rfl rfl
    rfl rfl (by decide) rfl rfl rfl rfl rfl rfl (by decide) rfl

/-- When a stop check around the inter-attempt sleep reads true, the common
tail leaves the loop instead of falling through. -/
lemma tail349_not_next (env : WorkerEnv) (a r sc : Nat)
    (h : env.stopPreSleep = true ∨ env.stopPostSleep = true) :
    (tail349 env a r sc).control ≠ .next := by
  unfold tail349
  rcases h with h | h
  · simp [h]
  · cases hp : env.stopPreSleep <;> simp [hp, h]

/-- Under the same stop condition, no handler path falls through either. -/
lemma onExc_not_next (env : WorkerEnv) (fipHeld : Bool) (a sc : Nat)
    (e : Exc) (h : env.stopPreSleep = true ∨ env.stopPostSleep = true) :
    (onExc env fipHeld a sc e).control ≠ .next := by
  unfold onExc
  cases e with
  | ki => simp
  | unauthorized =>
    cases hr : env.reauthRes with
    | exc e2 => simp
    | ok a2 => exact tail349_not_next env _ _ _ h
  | notFound =>
    cases hr : env.reauthRes with
    | exc e2 => simp
    | ok a2 => exact tail349_not_next env _ _ _ h
  | http => exact tail349_not_next env _ _ _ h
  | other => exact tail349_not_next env _ _ _ h

/-- The critical section always leaves the loop. -/
lemma winSection_not_next (env : WorkerEnv) (n : Nat) :
    (winSection env n).control ≠ .next := by
  unfold winSection
  split <;> simp

/-- Under a stop read around the sleep, the claim-and-verify path never
falls through to another pass. -/
lemma onQualified_not_next (env : WorkerEnv)
    (h : env.stopPreSleep = true ∨ env.stopPostSleep = true) :
    (onQualified env).control ≠ .next := by
  unfold onQualified
  repeat' split
  all_goals
    first
    | (simp; done)
    | (exact onExc_not_next env _ _ _ _ h)
    | (exact winSection_not_next env _)
    | (exact tail349_not_next env _ _ _ h)

/-- Under a stop read around the sleep, a pass holding an allocated
candidate never falls through to another pass. -/
lemma onAllocated_not_next (env : WorkerEnv) (ip : String)
    (h : env.stopPreSleep = true ∨ env.stopPostSleep = true) :
    (onAllocated env ip).control ≠ .next := by
  unfold onAllocated
  repeat' split
  all_goals
    first
    | (simp; done)
    | (exact onQualified_not_next env h)
    | (exact tail349_not_next env _ _ _ h)

/-- Under a stop read around the sleep, the `try` block falls through only
on the address-less-FIP path (whose own sleep is followed directly by the
loop-head stop check of the next pass). -/
lemma tryBlock_not_next (env : WorkerEnv) (hAlloc : env.allocRes ≠ .ok none)
    (h : env.stopPreSleep = true ∨ env.stopPostSleep = true) :
    (tryBlock env).control ≠ .next := by
  unfold tryBlock
  repeat' split
  all_goals
    first
    | (simp [haltIter]; done)
    | (exact absurd (by assumption) hAlloc)
    | (exact onExc_not_next env _ _ _ _ h)
    | (exact onAllocated_not_next env _ h)

/-- A poll pass whose post-sleep stop read is true does not start another
poll pass: its outcome is the same whatever fuel remains. -/
lemma wfaGo_post_stop (stop : Nat → Bool)
    (status : Nat → PyResult (Option String)) (pid : String) (n m k : Nat)
    (h : stop (2 * k + 1) = true) :
    wfaGo stop status pid (n + 1) k = wfaGo stop status pid (m + 1) k := by
  cases hs0 : stop (2 * k) with
  | true => simp [wfaGo, hs0]
  | false =>
    cases hst : status k with
    | exc e => simp [wfaGo, hs0, hst]
    | ok p =>
      by_cases hp : p = some pid
      · simp [wfaGo, hs0, hst, hp]
      · simp [wfaGo, hs0, hst, hp, h]

/-- C6 (cancellation latency bound), as the discrete re-check structure of
the code: (1) a worker whose loop-head stop read is true terminates at once,
with no allocator call and no sleep; (2) in any pass that did not take the
address-less-FIP `continue`, a true stop read immediately before or after
the inter-attempt sleep prevents the worker from starting another pass, so
a stop request arriving mid-sleep is honoured at the very next check;
(3) a true stop read at the entry of a verification poll pass ends the wait
at once with no further status call, and (4) a true post-sleep stop read
inside the wait ends it at that poll step - the remaining fuel is never
consumed.  Together: after the stop event is set, a worker finishes at most
the sleep or poll step it is currently in, observes the flag at the next
check, and terminates. -/
theorem c6_cancellation_latency :
    (∀ (env : WorkerEnv) (rest : List WorkerEnv), env.stopLoopHead = true →
       workerRun (env :: rest) = [haltIter]) ∧
    (∀ env : WorkerEnv, env.allocRes ≠ .ok none →
       env.stopPreSleep = true ∨ env.stopPostSleep = true →
       (workerIter env).control ≠ .next) ∧
    (∀ (stop : Nat → Bool) (status : Nat → PyResult (Option String))
       (pid : String) (n k : Nat), stop (2 * k) = true →
       wfaGo stop status pid n k = (.ok false, 0)) ∧
    (∀ (stop : Nat → Bool) (status : Nat → PyResult (Option String))
       (pid : String) (n m k : Nat), stop (2 * k + 1) = true →
       wfaGo stop status pid (n + 1) k = wfaGo stop status pid (m + 1) k) := by
  refine ⟨?_, ?_, ?_, ?_⟩
  · intro env rest h
    have hit : workerIter env = haltIter := by simp [workerIter, h]
    simp [workerRun, hit, haltIter]
  · intro env hAlloc h
    unfold workerIter
    repeat' split
    all_goals
      first
      | (simp [haltIter]; done)
      | (exact tryBlock_not_next env hAlloc h)
  · intro stop status pid n k h
    exact wfaGo_stop_entry stop status pid n k h
  · intro stop status pid n m k h
    exact wfaGo_post_stop stop status pid n m k h

/-- Witness for C6: a stopped worker terminates immediately with no calls;
a pass seeing the stop flag after its sleep does not loop; a stopped wait
polls zero times; a wait whose post-sleep read is true ignores its
remaining fuel. -/
theorem c6_witness :
    workerRun [envStopHead] = [haltIter] ∧
    (workerIter envPostSleep).control ≠ .next ∧
    wfaGo (fun _ => true) (fun _ => .ok none) "port-a" 5 2 = (.ok false, 0) ∧
    wfaGo (fun j => decide (j % 2 = 1)) (fun _ => .ok none) "port-a" 4 0 =
      wfaGo (fun j => decide (j % 2 = 1)) (fun _ => .ok none) "port-a" 9 0 := by
  have h := c6_cancellation_latency
  exact ⟨h.1 envStopHead [] rfl,
         h.2.1 envPostSleep (by decide) (Or.inr rfl),
         h.2.2.1 _ _ _ 5 2 rfl,
         h.2.2.2 _ _ _ 3 8 0 rfl⟩

/-- C5 (no-pause termination and exit codes): with a work window configured,
an uninterrupted cycle that ends unsuccessfully with `pause_event` set and a
missing or zero pause makes the top-level loop return 1 after exactly that
cycle, whatever further rounds would have followed; exit code 0 arises only
from a succeeded round and a succeeded uninterrupted round returns 0; exit
code 2 arises only from an interrupted round and an interrupted round
returns 2. -/
theorem c5_exit_codes :
    (∀ (cfg : MainCfg) (r : CycleRound) (rest : List CycleRound),
       cfg.workDuration.isSome = true → r.interrupted = false →
       r.succeeded = false → r.pauseEventSet = true →
       (cfg.pauseDuration = none ∨ cfg.pauseDuration = some 0) →
       mainLoop cfg (r :: rest) = some 1) ∧
    (∀ (cfg : MainCfg) (rounds : List CycleRound),
       mainLoop cfg rounds = some 0 → ∃ r ∈ rounds, r.succeeded = true) ∧
    (∀ (cfg : MainCfg) (rounds : List CycleRound),
       mainLoop cfg rounds = some 2 → ∃ r ∈ rounds, r.interrupted = true) ∧
    (∀ (cfg : MainCfg) (r : CycleRound) (rest : List CycleRound),
       r.succeeded = true → r.interrupted = false →
       mainLoop cfg (r :: rest) = some 0) ∧
    (∀ (cfg : MainCfg) (r : CycleRound) (rest : List CycleRound),
       r.interrupted = true → mainLoop cfg (r :: rest) = some 2) := by
  refine ⟨?_, ?_, ?_, ?_, ?_⟩
  · intro cfg r rest hw hi hs hp hpd
    simp [mainLoop, hi, hs, hw, hp, hpd]
  · intro cfg rounds h
    induction rounds with
    | nil => exact absurd h (by simp [mainLoop])
    | cons r rest ih =>
      unfold mainLoop at h
      split at h
      · simp at h
      · split at h
        · exact ⟨r, List.mem_cons_self r rest, by assumption⟩
        · split at h
          · split at h
            · simp at h
            · obtain ⟨x, hx, hxs⟩ := ih h
              exact ⟨x, List.mem_cons_of_mem r hx, hxs⟩
          · simp at h
  · intro cfg rounds h
    induction rounds with
    | nil => exact absurd h (by simp [mainLoop])
    | cons r rest ih =>
      unfold mainLoop at h
      split at h
      · exact ⟨r, List.mem_cons_self r rest, by assumption⟩
      · split at h
        · simp at h
        · split at h
          · split at h
            · simp at h
            · obtain ⟨x, hx, hxs⟩ := ih h
              exact ⟨x, List.mem_cons_of_mem r hx, hxs⟩
          · simp at h
  · intro cfg r rest hs hi
    simp [mainLoop, hs, hi]
  · intro cfg r rest hi
    simp [mainLoop, hi]

/-- Witness for C5: a work window of 180 minutes with no pause ends with
code 1 after one unsuccessful windowed cycle; a succeeded round yields
code 0 and is the succeeded round C5 demands; an interrupted round yields
code 2 and is the interrupted round C5 demands. -/
theorem c5_witness :
    mainLoop ⟨some 180, none⟩ [⟨false, false, true⟩] = some 1 ∧
    (∃ r ∈ [({ succeeded := true, interrupted := false,
               pauseEventSet := false } : CycleRound)], r.succeeded = true) ∧
    (∃ r ∈ [({ succeeded := false, interrupted := true,
               pauseEventSet := false } : CycleRound)], r.interrupted = true) ∧
    mainLoop ⟨none, none⟩ [⟨true, false, false⟩] = some 0 ∧
    mainLoop ⟨none, none⟩ [⟨false, true, false⟩] = some 2 := by
  have h := c5_exit_codes
  refine ⟨h.1 ⟨some 180, none⟩ ⟨false, false, true⟩ [] rfl rfl rfl rfl
      (Or.inl rfl), ?_, ?_,
    h.2.2.2.1 ⟨none, none⟩ ⟨true, false, false⟩ [] rfl rfl,
    h.2.2.2.2 ⟨none, none⟩ ⟨false, true, false⟩ [] rfl⟩
  · exact h.2.1 ⟨none, none⟩ [⟨true, false, false⟩] (by decide)
  · exact h.2.2.1 ⟨none, none⟩ [⟨false, true, false⟩] (by decide)
